import Mathlib

/-!
Verification of the expo-video-metadata byte-level parsing core.

The definitions below are a shallow embedding of the TypeScript source:
byte buffers are `List Nat` (each entry one byte value), JavaScript numbers
that hold 32-bit results of `<<`/`|` are `Int` (two's-complement wrap at
2^32), fractional arithmetic is over `ℚ`, and a thrown exception is an
`Except` error that carries the reader state at the throw point.
-/

namespace VideoMeta

/-! ## Data model: VideoColorInfo (ExpoVideoMetadata.types.ts) -/

structure VideoColorInfo where
  matrixCoefficients : Option String
  transferCharacteristics : Option String
  primaries : Option String
  fullRange : Option Bool
deriving DecidableEq, Repr

def getDefaultColorInfo : VideoColorInfo :=
  { matrixCoefficients := none
    transferCharacteristics := none
    primaries := none
    fullRange := none }

/-! ## Binary reader (binary-reader.ts)

State of `BinaryReaderImpl`: the immutable byte buffer plus the cursor.
Each operation returns `Except BinaryReader (α × BinaryReader)`; a thrown
`Read beyond bounds`/`Seek beyond bounds`/`Skip beyond bounds` error is the
`.error` case and carries the reader state as it is at the throw point
(in the source every bounds check precedes the mutation of `offset`). -/

structure BinaryReader where
  data : List Nat
  offset : Nat
deriving DecidableEq, Repr

/-- Two's-complement reinterpretation of a 32-bit word, the result of a
JavaScript `<<`/`|` chain. -/
def toInt32 (w : Nat) : Int :=
  if w % 4294967296 < 2147483648 then ((w % 4294967296 : Nat) : Int)
  else ((w % 4294967296 : Nat) : Int) - 4294967296

/-- JavaScript `ToUint32` of an integer value. -/
def toUint32 (v : Int) : Nat := (v % 4294967296).toNat

/-- JavaScript `(value << 8) | byte` on int32 values (byte < 256). -/
def jsShl8Or (v : Int) (b : Nat) : Int :=
  toInt32 (toUint32 v * 256 + b)

namespace BinaryReader

def length (br : BinaryReader) : Nat := br.data.length

abbrev ReadResult (α : Type) := Except BinaryReader (α × BinaryReader)

def read (br : BinaryReader) (n : Nat) : ReadResult (List Nat) :=
  if br.offset + n > br.length then .error br
  else .ok ((br.data.drop br.offset).take n, { br with offset := br.offset + n })

def readUint8 (br : BinaryReader) : ReadResult Nat :=
  if br.offset + 1 > br.length then .error br
  else .ok (br.data.getD br.offset 0, { br with offset := br.offset + 1 })

def readUint16 (br : BinaryReader) : ReadResult Nat :=
  if br.offset + 2 > br.length then .error br
  else .ok (br.data.getD br.offset 0 * 256 + br.data.getD (br.offset + 1) 0,
    { br with offset := br.offset + 2 })

/-- `readUint32` of the source builds the value with `<<`/`|`, so the
JavaScript result is the SIGNED 32-bit reinterpretation of the big-endian
word (a leading byte ≥ 0x80 gives a negative number). -/
def readUint32 (br : BinaryReader) : ReadResult Int :=
  if br.offset + 4 > br.length then .error br
  else .ok (toInt32 (br.data.getD br.offset 0 * 16777216 +
      br.data.getD (br.offset + 1) 0 * 65536 +
      br.data.getD (br.offset + 2) 0 * 256 + br.data.getD (br.offset + 3) 0),
    { br with offset := br.offset + 4 })

/-- `readUint64` checks 8 bytes up front, then combines two (signed)
`readUint32` results as `high * 2^32 + low`. -/
def readUint64 (br : BinaryReader) : ReadResult Int :=
  if br.offset + 8 > br.length then .error br
  else
    match br.readUint32 with
    | .error e => .error e
    | .ok (high, br1) =>
      match br1.readUint32 with
      | .error e => .error e
      | .ok (low, br2) => .ok (high * 4294967296 + low, br2)

/-- `readString` delegates to `read`; the UTF-8 decoding step is modelled as
the identity on the byte run (all comparisons in the parsers are against
pure-ASCII tags, for which the decoding is injective). -/
def readString (br : BinaryReader) (n : Nat) : ReadResult (List Nat) :=
  br.read n

def seek (br : BinaryReader) (off : Int) : ReadResult Unit :=
  if off < 0 ∨ off > (br.length : Int) then .error br
  else .ok ((), { br with offset := off.toNat })

def skip (br : BinaryReader) (d : Int) : ReadResult Unit :=
  let newOffset : Int := (br.offset : Int) + d
  if newOffset < 0 ∨ newOffset > (br.length : Int) then .error br
  else .ok ((), { br with offset := newOffset.toNat })

def remaining (br : BinaryReader) : Int := (br.length : Int) - (br.offset : Int)

def canRead (br : BinaryReader) (n : Nat) : Bool := br.offset + n ≤ br.length

/-- Unrolling of the leading-zero count loop of `readVint`: total byte
length of the VINT determined by the first byte (9 when the byte is 0). -/
def vintLength (b : Nat) : Nat :=
  if b &&& 128 ≠ 0 then 1
  else if b &&& 64 ≠ 0 then 2
  else if b &&& 32 ≠ 0 then 3
  else if b &&& 16 ≠ 0 then 4
  else if b &&& 8 ≠ 0 then 5
  else if b &&& 4 ≠ 0 then 6
  else if b &&& 2 ≠ 0 then 7
  else if b &&& 1 ≠ 0 then 8
  else 9

/-- The `for (let i = 1; i < length; i++)` accumulation loop of `readVint`:
shifts in one byte per step, stopping early when the buffer runs out. -/
def readVintLoop : Nat → Int → BinaryReader → Int × BinaryReader
  | 0, v, br => (v, br)
  | k + 1, v, br =>
    if br.canRead 1 then
      readVintLoop k (jsShl8Or v (br.data.getD br.offset 0))
        { br with offset := br.offset + 1 }
    else (v, br)

/-- `readVint` (binary-reader.ts lines 93-148): known long IDs with first
byte 0x1A/0x18/0x16 are special-cased to an inclusive 4-byte ID; every
other VINT is returned with the length-marker bit masked out. -/
def readVint (br : BinaryReader) : ReadResult Int :=
  if br.canRead 1 = false then .error br
  else
    let firstByte := br.data.getD br.offset 0
    if br.canRead 4 && (firstByte == 26 || firstByte == 24 || firstByte == 22) then
      .ok (toInt32 (firstByte * 16777216 + br.data.getD (br.offset + 1) 0 * 65536 +
          br.data.getD (br.offset + 2) 0 * 256 + br.data.getD (br.offset + 3) 0),
        { br with offset := br.offset + 4 })
    else
      let len := vintLength firstByte
      let v0 : Int := (firstByte &&& (255 >>> len) : Nat)
      let r := readVintLoop (len - 1) v0 { br with offset := br.offset + 1 }
      .ok (r.1, r.2)

end BinaryReader

/-- Big-endian value of a byte run. -/
def bigEndianNat (l : List Nat) : Nat := l.foldl (fun a b => a * 256 + b) 0

/-! ## Container dispatcher (video-container-parser.ts)

`parseContainer` slices the FIRST 32 BYTES of the input and runs
`detectContainer` on that slice, then switches on the detected tag to pick
a parser. The detection logic is identical in both revisions of the file;
the two revisions differ only in the switch (the later one also routes
`mkv`). Neither switch has an `avi` case, and `isTransportStream` inspects
offsets 188 and 376 which never exist inside the 32-byte slice
(JavaScript indexing out of range gives `undefined`, and
`undefined === 0x47` is false). -/

inductive VideoContainer where
  | mp4
  | mov
  | webm
  | mkv
  | avi
  | ts
  | unknown
deriving DecidableEq, Repr

def SIG_MP4 : List Nat := [102, 116, 121, 112]

def SIG_WEBM : List Nat := [26, 69, 223, 163]

def SIG_MOV : List Nat := [109, 111, 111, 118]

def SIG_AVI : List Nat := [82, 73, 70, 70]

/-- `matchSignature`: every signature byte matches the buffer at
`offset + i`; an out-of-range JavaScript index reads `undefined`, which
compares unequal to every byte, modelled by `List.get?`. -/
def matchSignature (bytes : List Nat) (offset : Nat) (signature : List Nat) : Bool :=
  signature.enum.all fun p => bytes.get? (offset + p.1) == some p.2

/-- `isTransportStream`: 0x47 sync bytes at offsets 0, 188 and 376. -/
def isTransportStream (bytes : List Nat) : Bool :=
  bytes.get? 0 == some 71 && bytes.get? 188 == some 71 && bytes.get? 376 == some 71

/-- Byte-scan of `isMatroska` for the DocType element 42 82 followed by
the ASCII run "matroska" (fuel bounds the `while`, one unit per step). -/
def isMatroskaGo (bytes : List Nat) : Nat → Nat → Bool
  | 0, _ => false
  | fuel + 1, offset =>
    if (offset : Int) < (bytes.length : Int) - 8 then
      if bytes.getD offset 0 == 66 && bytes.getD (offset + 1) 0 == 130 then
        (bytes.drop (offset + 2)).take 8 == [109, 97, 116, 114, 111, 115, 107, 97]
      else isMatroskaGo bytes fuel (offset + 1)
    else false

def isMatroska (bytes : List Nat) : Bool := isMatroskaGo bytes bytes.length 4

/-- The `for offset` signature scan of `detectContainer`: at each offset
try MP4, then MOV, then AVI. -/
def detectGo (bytes : List Nat) : Nat → Nat → Option VideoContainer
  | 0, _ => none
  | fuel + 1, offset =>
    if (offset : Int) < (bytes.length : Int) - 8 then
      if matchSignature bytes offset SIG_MP4 then some .mp4
      else if matchSignature bytes offset SIG_MOV then some .mov
      else if matchSignature bytes offset SIG_AVI then some .avi
      else detectGo bytes fuel (offset + 1)
    else none

/-- `detectContainer`: TS sync check first, then the signature scan, then
the shared WebM/MKV magic with DocType discrimination. -/
def detectContainer (bytes : List Nat) : VideoContainer :=
  if isTransportStream bytes then .ts
  else
    match detectGo bytes bytes.length 0 with
    | some c => c
    | none =>
      if matchSignature bytes 0 SIG_WEBM then
        if isMatroska bytes then .mkv else .webm
      else .unknown

/-- Detection as `parseContainer` actually performs it: on the 32-byte
header slice (`file.slice(0, 32)`). -/
def dispatchDetect (bytes : List Nat) : VideoContainer :=
  detectContainer (bytes.take 32)

/-- The `switch (container)` of `parseContainer` in the earlier revision
(part_002): which parser the detected tag is routed to; `none` is the
`Unsupported container format` throw of the `default` arm. -/
def routeOf2 : VideoContainer → Option VideoContainer
  | .mp4 => some .mp4
  | .mov => some .mov
  | .webm => some .webm
  | .ts => some .ts
  | _ => none

/-- The `switch (container)` of `parseContainer` in the later revision
(part_003, which also imports the AVI parser but never dispatches to it):
adds the `mkv` case and still has no `avi` case. -/
def routeOf3 : VideoContainer → Option VideoContainer
  | .mp4 => some .mp4
  | .mov => some .mov
  | .webm => some .webm
  | .mkv => some .mkv
  | .ts => some .ts
  | _ => none

/-- A RIFF/AVI file header: `RIFF`, a chunk size, the `AVI ` form type,
then further chunk data. -/
def aviHeaderBytes : List Nat :=
  [82, 73, 70, 70, 100, 0, 0, 0, 65, 86, 73, 32] ++ List.replicate 24 0

/-! ## HdrDetector.isHdr (hdr-detector.ts, current revision) -/

def isHdr (colorInfo : VideoColorInfo) : Bool :=
  let isHdr10 :=
    colorInfo.primaries = some "bt2020" &&
    colorInfo.transferCharacteristics = some "smpte2084" &&
    (colorInfo.matrixCoefficients = some "bt2020nc" ||
      colorInfo.matrixCoefficients = some "bt2020c" ||
      colorInfo.matrixCoefficients = some "ictcp")
  let isHlg :=
    colorInfo.primaries = some "bt2020" &&
    (colorInfo.transferCharacteristics = some "hlg" ||
      colorInfo.transferCharacteristics = some "arib-std-b67")
  let isDolbyVision :=
    colorInfo.transferCharacteristics = some "smpte2084" &&
    colorInfo.matrixCoefficients = some "ictcp"
  isHdr10 || isHlg || isDolbyVision

/-! ## HdrDetector codec-configuration parsing (hdr-detector.ts, current
revision). Each `parseX` mirrors one handler; the `try/catch` around each
handler is the nested `match`: any reader error yields the all-absent
default record. -/

/-- H.273 matrix-coefficients table of the current revision. -/
def mapMatrixCoefficients : Nat → Option String
  | 0 => some "rgb"
  | 1 => some "bt709"
  | 2 => some "unspecified"
  | 4 => some "fcc"
  | 5 => some "bt470bg"
  | 6 => some "bt601"
  | 7 => some "smpte240m"
  | 8 => some "ycgco"
  | 9 => some "bt2020nc"
  | 10 => some "bt2020c"
  | 11 => some "smpte2085"
  | 12 => some "chroma-derived-nc"
  | 13 => some "chroma-derived-c"
  | 14 => some "ictcp"
  | _ => none

/-- H.273 transfer-characteristics table of the current revision. -/
def mapTransferCharacteristics : Nat → Option String
  | 1 => some "bt709"
  | 2 => some "unspecified"
  | 4 => some "gamma22"
  | 5 => some "gamma28"
  | 6 => some "bt601"
  | 7 => some "smpte240m"
  | 8 => some "linear"
  | 9 => some "log100"
  | 10 => some "log316"
  | 11 => some "xvycc"
  | 12 => some "bt1361"
  | 13 => some "srgb"
  | 14 => some "bt2020-10"
  | 15 => some "bt2020-12"
  | 16 => some "smpte2084"
  | 17 => some "smpte428"
  | 18 => some "hlg"
  | 19 => some "arib-std-b67"
  | _ => none

/-- H.273 colour-primaries table of the current revision. -/
def mapColorPrimaries : Nat → Option String
  | 1 => some "bt709"
  | 2 => some "unspecified"
  | 4 => some "bt470m"
  | 5 => some "bt470bg"
  | 6 => some "bt601"
  | 7 => some "smpte240m"
  | 8 => some "film"
  | 9 => some "bt2020"
  | 10 => some "smpte428"
  | 11 => some "smpte431"
  | 12 => some "smpte432"
  | 22 => some "jedec-p22"
  | _ => none

/-- `parseAVCConfig`: four u8 reads (configurationVersion, profile_idc,
profile_compatibility, level_idc) and the profile switch. Profiles
110/122 map to the HDR record with transfer `bt2100-pq`. -/
def parseAVCConfig (reader : BinaryReader) : VideoColorInfo :=
  match reader.readUint8 with
  | .error _ => getDefaultColorInfo
  | .ok (_configurationVersion, r1) =>
    match r1.readUint8 with
    | .error _ => getDefaultColorInfo
    | .ok (profileIdc, r2) =>
      match r2.readUint8 with
      | .error _ => getDefaultColorInfo
      | .ok (_profileCompatibility, r3) =>
        match r3.readUint8 with
        | .error _ => getDefaultColorInfo
        | .ok (_levelIdc, _r4) =>
          if profileIdc = 110 ∨ profileIdc = 122 then
            { matrixCoefficients := some "bt2020nc"
              transferCharacteristics := some "bt2100-pq"
              primaries := some "bt2020"
              fullRange := some true }
          else if profileIdc = 100 ∨ profileIdc = 118 ∨ profileIdc = 44 then
            { matrixCoefficients := some "bt709"
              transferCharacteristics := some "bt709"
              primaries := some "bt709"
              fullRange := some false }
          else if profileIdc = 66 ∨ profileIdc = 77 ∨ profileIdc = 82 ∨ profileIdc = 88 then
            { matrixCoefficients := some "bt601"
              transferCharacteristics := some "bt601"
              primaries := some "bt601"
              fullRange := some false }
          else getDefaultColorInfo

/-- `parseHEVCConfig`: config version, general profile space, six
constraint-flag bytes, level; main-10 indication when profile_idc = 2 or
bit 0x40 of the second constraint byte is set. -/
def parseHEVCConfig (reader : BinaryReader) : VideoColorInfo :=
  match reader.readUint8 with
  | .error _ => getDefaultColorInfo
  | .ok (_configVersion, r1) =>
    match r1.readUint8 with
    | .error _ => getDefaultColorInfo
    | .ok (generalProfileSpace, r2) =>
      match r2.readUint8 with
      | .error _ => getDefaultColorInfo
      | .ok (_f0, r3) =>
        match r3.readUint8 with
        | .error _ => getDefaultColorInfo
        | .ok (f1, r4) =>
          match r4.readUint8 with
          | .error _ => getDefaultColorInfo
          | .ok (_f2, r5) =>
            match r5.readUint8 with
            | .error _ => getDefaultColorInfo
            | .ok (_f3, r6) =>
              match r6.readUint8 with
              | .error _ => getDefaultColorInfo
              | .ok (_f4, r7) =>
                match r7.readUint8 with
                | .error _ => getDefaultColorInfo
                | .ok (_f5, r8) =>
                  match r8.readUint8 with
                  | .error _ => getDefaultColorInfo
                  | .ok (_levelIdc, _r9) =>
                    if generalProfileSpace &&& 31 = 2 ∨ f1 &&& 64 ≠ 0 then
                      { matrixCoefficients := some "bt2020nc"
                        transferCharacteristics := some "smpte2084"
                        primaries := some "bt2020"
                        fullRange := some true }
                    else getDefaultColorInfo

/-- `parseAV1Config`: marker, version, profile-and-level, flags. -/
def parseAV1Config (reader : BinaryReader) : VideoColorInfo :=
  match reader.readUint8 with
  | .error _ => getDefaultColorInfo
  | .ok (_marker, r1) =>
    match r1.readUint8 with
    | .error _ => getDefaultColorInfo
    | .ok (_version, r2) =>
      match r2.readUint8 with
      | .error _ => getDefaultColorInfo
      | .ok (profileAndLevel, r3) =>
        match r3.readUint8 with
        | .error _ => getDefaultColorInfo
        | .ok (flags, _r4) =>
          if flags &&& 4 ≠ 0 ∨ (2 ≤ (profileAndLevel >>> 5) &&& 7 ∧ flags &&& 2 ≠ 0) then
            { matrixCoefficients := some "bt2020nc"
              transferCharacteristics := some "smpte2084"
              primaries := some "bt2020"
              fullRange := some true }
          else getDefaultColorInfo

/-- `parseVP9Config`: profile, level, bit depth, colour config. -/
def parseVP9Config (reader : BinaryReader) : VideoColorInfo :=
  match reader.readUint8 with
  | .error _ => getDefaultColorInfo
  | .ok (profile, r1) =>
    match r1.readUint8 with
    | .error _ => getDefaultColorInfo
    | .ok (_level, r2) =>
      match r2.readUint8 with
      | .error _ => getDefaultColorInfo
      | .ok (bitDepth, r3) =>
        match r3.readUint8 with
        | .error _ => getDefaultColorInfo
        | .ok (colorConfig, _r4) =>
          if (2 ≤ profile ∧ 10 ≤ bitDepth) ∨ colorConfig &&& 4 ≠ 0 then
            { matrixCoefficients := some "bt2020nc"
              transferCharacteristics := some "smpte2084"
              primaries := some "bt2020"
              fullRange := some true }
          else
            { matrixCoefficients := some "bt709"
              transferCharacteristics := some "bt709"
              primaries := some "bt709"
              fullRange := some false }

/-- `parseDolbyVision`: five u8 reads; always an HDR record, with the
transfer picked by the Dolby Vision profile. -/
def parseDolbyVision (reader : BinaryReader) : VideoColorInfo :=
  match reader.readUint8 with
  | .error _ => getDefaultColorInfo
  | .ok (dvProfile, r1) =>
    match r1.readUint8 with
    | .error _ => getDefaultColorInfo
    | .ok (_dvLevel, r2) =>
      match r2.readUint8 with
      | .error _ => getDefaultColorInfo
      | .ok (_rpuFlag, r3) =>
        match r3.readUint8 with
        | .error _ => getDefaultColorInfo
        | .ok (_elFlag, r4) =>
          match r4.readUint8 with
          | .error _ => getDefaultColorInfo
          | .ok (_blFlag, _r5) =>
            { matrixCoefficients := some "ictcp"
              transferCharacteristics :=
                if dvProfile ≤ 7 then some "smpte2084" else some "bt1361"
              primaries := some "bt2020"
              fullRange := some true }

/-- `parseMasteringDisplayColorVolume`: skip primaries and white point,
read max/min luminance; HDR when maxLuminance exceeds 1000 nits (in
0.0001-nit units). -/
def parseMasteringDisplayColorVolume (reader : BinaryReader) : VideoColorInfo :=
  match reader.skip 24 with
  | .error _ => getDefaultColorInfo
  | .ok (_, r1) =>
    match r1.skip 8 with
    | .error _ => getDefaultColorInfo
    | .ok (_, r2) =>
      match r2.readUint32 with
      | .error _ => getDefaultColorInfo
      | .ok (maxLuminance, r3) =>
        match r3.readUint32 with
        | .error _ => getDefaultColorInfo
        | .ok (_minLuminance, _r4) =>
          if maxLuminance > 1000000 then
            { matrixCoefficients := some "bt2020nc"
              transferCharacteristics := some "smpte2084"
              primaries := some "bt2020"
              fullRange := some true }
          else getDefaultColorInfo

/-- `parseContentLightLevel`: 16-bit maxCLL and maxFALL; HDR when maxCLL
exceeds 1000 nits. -/
def parseContentLightLevel (reader : BinaryReader) : VideoColorInfo :=
  match reader.readUint16 with
  | .error _ => getDefaultColorInfo
  | .ok (maxCLL, r1) =>
    match r1.readUint16 with
    | .error _ => getDefaultColorInfo
    | .ok (_maxFALL, _r2) =>
      if maxCLL > 1000 then
        { matrixCoefficients := some "bt2020nc"
          transferCharacteristics := some "smpte2084"
          primaries := some "bt2020"
          fullRange := some true }
      else getDefaultColorInfo

def nclxTag : List Nat := [110, 99, 108, 120]

def nclcTag : List Nat := [110, 99, 108, 99]

def mdcvTag : List Nat := [109, 100, 99, 118]

def clliTag : List Nat := [99, 108, 108, 105]

def doviTag : List Nat := [100, 111, 118, 105]

def rICCTag : List Nat := [114, 73, 67, 67]

def profTag : List Nat := [112, 114, 111, 102]

/-- The `colourType` switch of `parseMP4ColorInfo` after the codec-config
dispatch: read a 4-byte tag and handle nclx/nclc, mdcv, clli, dovi,
rICC/prof; anything else (or a failed read) is the default record. -/
def parseColourTypePath (reader : BinaryReader) : VideoColorInfo :=
  match reader.readString 4 with
  | .error _ => getDefaultColorInfo
  | .ok (colourType, r1) =>
    if colourType = nclxTag ∨ colourType = nclcTag then
      match r1.readUint16 with
      | .error _ => getDefaultColorInfo
      | .ok (primaries, r2) =>
        match r2.readUint16 with
        | .error _ => getDefaultColorInfo
        | .ok (transfer, r3) =>
          match r3.readUint16 with
          | .error _ => getDefaultColorInfo
          | .ok (matrix, r4) =>
            if colourType = nclxTag then
              match r4.readUint8 with
              | .error _ => getDefaultColorInfo
              | .ok (b, _r5) =>
                { matrixCoefficients := mapMatrixCoefficients matrix
                  transferCharacteristics := mapTransferCharacteristics transfer
                  primaries := mapColorPrimaries primaries
                  fullRange := some ((b &&& 128) ≠ 0) }
            else
              { matrixCoefficients := mapMatrixCoefficients matrix
                transferCharacteristics := mapTransferCharacteristics transfer
                primaries := mapColorPrimaries primaries
                fullRange := none }
    else if colourType = mdcvTag then parseMasteringDisplayColorVolume r1
    else if colourType = clliTag then parseContentLightLevel r1
    else if colourType = doviTag then parseDolbyVision r1
    else if colourType = rICCTag ∨ colourType = profTag then
      { matrixCoefficients := some "rgb"
        transferCharacteristics := none
        primaries := none
        fullRange := some true }
    else getDefaultColorInfo

/-- `parseMP4ColorInfo` (current revision): dispatch on the first two
bytes — configurationVersion 1 with the HEVC (0x22), AVC (0x64/0x4D/0x42),
AV1 (0x81) or VP9 (0x91) profile byte — else fall through to the
4-character colour-type switch. Out-of-range indexing is `undefined` and
matches no case. -/
def parseMP4ColorInfo (data : List Nat) : VideoColorInfo :=
  let reader : BinaryReader := { data := data, offset := 0 }
  if data.get? 0 = some 1 then
    if data.get? 1 = some 34 then parseHEVCConfig reader
    else if data.get? 1 = some 100 ∨ data.get? 1 = some 77 ∨ data.get? 1 = some 66 then
      parseAVCConfig reader
    else if data.get? 1 = some 129 then parseAV1Config reader
    else if data.get? 1 = some 145 then parseVP9Config reader
    else parseColourTypePath reader
  else parseColourTypePath reader

/-! ## FPS detector (fps-detector.ts)

JavaScript number arithmetic of the detector is modelled over `ℚ`; the
`stts` counts and deltas come from `readUint32` and are signed integers.
`Math.round` rounds half toward positive infinity. -/

/-- `TimingInfo`: timescale, the `(count, duration)` sample-table entries
in stream order, the track duration in ticks, and the total sample count. -/
structure TimingInfo where
  timescale : Int
  sampleTable : List (Int × Int)
  duration : Int
  totalSamples : Int
deriving DecidableEq, Repr

/-- JavaScript `Math.round`. -/
def jsRound (x : ℚ) : Int := ⌊x + 1 / 2⌋

/-- The `commonFps` table of `calculateFps`: nominal values, each with
tolerance 0.01. -/
def commonFpsTol : List (ℚ × ℚ) :=
  [(23.976, 0.01), (24, 0.01), (25, 0.01), (29.97, 0.01), (30, 0.01), (48, 0.01),
   (50, 0.01), (59.94, 0.01), (60, 0.01), (90, 0.01), (120, 0.01), (144, 0.01),
   (165, 0.01), (240, 0.01)]

/-- The snapping stage of `calculateFps` (lines 93-117): first the direct
nominal match within tolerance, then the double/half match, then
3-decimal rounding on [10, 240], else absent. -/
def snapFps (calculatedFps : ℚ) : Option ℚ :=
  match commonFpsTol.find? (fun vt => |calculatedFps - vt.1| ≤ vt.2) with
  | some vt => some vt.1
  | none =>
    match commonFpsTol.find? (fun vt =>
        |calculatedFps / 2 - vt.1| ≤ 0.01 ∨ |calculatedFps * 2 - vt.1| ≤ 0.01) with
    | some vt => some vt.1
    | none =>
      if 10 ≤ calculatedFps ∧ calculatedFps ≤ 240 then
        some ((jsRound (calculatedFps * 1000) : ℚ) / 1000)
      else none

/-- `calculateFps`: weighted-average frame duration from the sample table,
timescale divided by it, then snapping. -/
def calculateFps (timing : Option TimingInfo) : Option ℚ :=
  match timing with
  | none => none
  | some t =>
    if t.sampleTable.length = 0 ∨ t.timescale = 0 then none
    else
      let totalDuration := t.sampleTable.foldl (fun acc e => acc + e.2 * e.1) (0 : Int)
      let totalFrames := t.sampleTable.foldl (fun acc e => acc + e.1) (0 : Int)
      if totalDuration = 0 ∨ totalFrames = 0 then none
      else
        let averageDuration : ℚ := (totalDuration : ℚ) / (totalFrames : ℚ)
        snapFps ((t.timescale : ℚ) / averageDuration)

/-- The nominal FPS set as the claim lists it. -/
def commonFpsValues : List ℚ :=
  [23.976, 24, 25, 29.97, 30, 48, 50, 59.94, 60, 90, 120, 144, 165, 240]

/-- Modelled from the claim's words: snap fps0 to the nominal set within
±0.01, otherwise to a nominal matched by fps0/2 or fps0·2 within 0.01,
otherwise round to 3 decimals on [10, 240], otherwise absent. -/
def claimSnap (x : ℚ) : Option ℚ :=
  match commonFpsValues.find? (fun v => |x - v| ≤ 0.01) with
  | some v => some v
  | none =>
    match commonFpsValues.find? (fun v => |x / 2 - v| ≤ 0.01 ∨ |x * 2 - v| ≤ 0.01) with
    | some v => some v
    | none =>
      if 10 ≤ x ∧ x ≤ 240 then some ((jsRound (x * 1000) : ℚ) / 1000) else none

/-- Modelled from the claim's words: fps0 is the timescale divided by the
weighted average frame duration Σ(count·delta)/Σ(count). -/
def claimFps (t : TimingInfo) : ℚ :=
  (t.timescale : ℚ) /
    ((((t.sampleTable.map (fun e => e.1 * e.2)).sum : Int) : ℚ) /
      (((t.sampleTable.map (fun e => e.1)).sum : Int) : ℚ))

/-- The entry-reading loop of `parseMP4TimingInfo` (lines 27-35): up to
`entryCount` iterations while at least 8 bytes remain; entries with a zero
count or delta are skipped, the rest are appended in order together with
the running sample total. -/
def sttsLoop : Nat → BinaryReader → List (Int × Int) → Int → List (Int × Int) × Int
  | 0, _, acc, tot => (acc, tot)
  | k + 1, br, acc, tot =>
    if 8 ≤ br.remaining then
      match br.readUint32 with
      | .error _ => (acc, tot)
      | .ok (count, br1) =>
        match br1.readUint32 with
        | .error _ => (acc, tot)
        | .ok (delta, br2) =>
          if count = 0 ∨ delta = 0 then sttsLoop k br2 acc tot
          else sttsLoop k br2 (acc ++ [(count, delta)]) (tot + count)
    else (acc, tot)

/-- `FpsDetector.parseMP4TimingInfo`: short buffers and out-of-bounds entry
counts give `null`; otherwise the version/flags are skipped, the entry
count is read, the entry loop runs, and an empty resulting table gives
`null` (the surrounding `try` also maps reader errors to `null`). -/
def parseMP4TimingInfo (data : List Nat) (timescale duration : Int) : Option TimingInfo :=
  if data.length < 8 then none
  else
    match BinaryReader.skip { data := data, offset := 0 } 4 with
    | .error _ => none
    | .ok (_, r1) =>
      match r1.readUint32 with
      | .error _ => none
      | .ok (entryCount, r2) =>
        if entryCount ≤ 0 ∨ 10000 < entryCount then none
        else
          match sttsLoop entryCount.toNat r2 [] 0 with
          | (st, tot) =>
            if st = [] then none
            else some ⟨timescale, st, duration, tot⟩

/-! ## MP4 parser (mp4-parser.ts)

Box payloads are byte lists. The `end` field of the source's `MP4Box` is
named `stop` here (`end` is a reserved word in Lean). Box sizes are built
by the same `<<`/`|` chains as `readUint32`, so they are signed 32-bit
values; the 64-bit large-size path combines two signed halves exactly.
Box types are kept as 4-byte lists (the `TextDecoder` step is modelled as
the identity, as all comparisons are against pure-ASCII tags). -/

/-- Signed 32-bit big-endian word assembled with `<<`/`|` from the four
bytes at `off` (an out-of-range byte reads as `undefined`, which the
shift chain turns into 0). -/
def jsInt32BE (data : List Nat) (off : Nat) : Int :=
  toInt32 (data.getD off 0 * 16777216 + data.getD (off + 1) 0 * 65536 +
    data.getD (off + 2) 0 * 256 + data.getD (off + 3) 0)

/-- The 64-bit size path `(highBits * Math.pow(2, 32)) + lowBits`. -/
def jsInt64BE (data : List Nat) (off : Nat) : Int :=
  jsInt32BE data off * 4294967296 + jsInt32BE data (off + 4)

/-- `MP4Box` of ExpoVideoMetadata.types: the source's `end` field is
renamed `stop`. -/
structure MP4Box where
  type : List Nat
  size : Int
  start : Nat
  stop : Nat
  data : List Nat
deriving DecidableEq, Repr

/-- ASCII bytes of the box-type tag `moov`. -/
def moovT : List Nat := [109, 111, 111, 118]

/-- ASCII bytes of `trak`. -/
def trakT : List Nat := [116, 114, 97, 107]

/-- ASCII bytes of `tkhd`. -/
def tkhdT : List Nat := [116, 107, 104, 100]

/-- ASCII bytes of `mdia`. -/
def mdiaT : List Nat := [109, 100, 105, 97]

/-- ASCII bytes of `hdlr`. -/
def hdlrT : List Nat := [104, 100, 108, 114]

/-- ASCII bytes of the handler tag `vide`. -/
def videT : List Nat := [118, 105, 100, 101]

/-- ASCII bytes of `minf`. -/
def minfT : List Nat := [109, 105, 110, 102]

/-- ASCII bytes of `stbl`. -/
def stblT : List Nat := [115, 116, 98, 108]

/-- ASCII bytes of `stsd`. -/
def stsdT : List Nat := [115, 116, 115, 100]

/-- ASCII bytes of `avc1`. -/
def avc1T : List Nat := [97, 118, 99, 49]

/-- ASCII bytes of `hev1`. -/
def hev1T : List Nat := [104, 101, 118, 49]

/-- ASCII bytes of `mp4v`. -/
def mp4vT : List Nat := [109, 112, 52, 118]

/-- ASCII bytes of `pasp`. -/
def paspT : List Nat := [112, 97, 115, 112]

/-- ASCII bytes of `colr`. -/
def colrT : List Nat := [99, 111, 108, 114]

/-- ASCII bytes of `mdhd`. -/
def mdhdT : List Nat := [109, 100, 104, 100]

/-- ASCII bytes of `stts`. -/
def sttsT : List Nat := [115, 116, 116, 115]

/-- Failure cases of `MP4Parser`: one constructor per thrown message, plus
`readErr` for a rethrown reader bounds error. -/
inductive Mp4Err where
  | noMoov
  | noVideoTrack
  | noTkhd
  | noMdia
  | noMinf
  | noStbl
  | noStsd
  | readErr
deriving DecidableEq, Repr

/-- Propagation of a reader bounds error out of the parser: the thrown
exception is rethrown by `parse`, so only the kind of failure is kept. -/
def liftR {α : Type} : Except BinaryReader α → Except Mp4Err α
  | .error _ => .error .readErr
  | .ok v => .ok v

/-- Per-track metadata returned by `parseVideoTrack`. -/
structure VideoTrackMetadata where
  width : Int
  height : Int
  rotation : Nat
  displayAspectWidth : Int
  displayAspectHeight : Int
  colorInfo : VideoColorInfo
  fps : Option ℚ
deriving DecidableEq, Repr

/-- Result of `MP4Parser.parse`: the source spreads the track metadata and
adds `container`; the spread is modelled as a `track` field. -/
structure ParsedVideoMetadata where
  track : VideoTrackMetadata
  container : VideoContainer
deriving DecidableEq, Repr

namespace MP4Parser

/-- The `readBoxes` while-loop (lines 41-95), one fuel unit per iteration;
`offset` grows by at least 8 each step, so `data.length + 1` units
suffice. `break` is the empty list; a 32-bit size of 1 switches to the
64-bit size with a 16-byte header, a size of 0 extends the box to the end
of the buffer. -/
def readBoxesGo (data : List Nat) : Nat → Nat → List MP4Box
  | 0, _ => []
  | fuel + 1, offset =>
    if offset < data.length then
      if data.length - offset < 8 then []
      else
        let size := jsInt32BE data offset
        let type := (data.drop (offset + 4)).take 4
        if size = 1 ∧ data.length - offset < 16 then []
        else
          let boxSize : Int :=
            if size = 1 then jsInt64BE data (offset + 8)
            else if size = 0 then ((data.length - offset : Nat) : Int)
            else size
          let headerSize : Nat := if size = 1 then 16 else 8
          if boxSize < (headerSize : Int) ∨ (offset : Int) + boxSize > (data.length : Int) then
            []
          else
            { type := type, size := boxSize, start := offset, stop := offset + boxSize.toNat,
              data := (data.drop (offset + headerSize)).take (boxSize.toNat - headerSize) } ::
              readBoxesGo data fuel (offset + boxSize.toNat)
    else []

/-- `MP4Parser.readBoxes` on the reader's buffer. -/
def readBoxes (data : List Nat) : List MP4Box := readBoxesGo data (data.length + 1) 0

/-- The `parseBoxes` while-loop (lines 97-159). It differs from
`readBoxesGo` in the early `size <= 0 || size > data.length - offset`
break and in the header sizes: 16 for `stsd`, 86 for `avc1` (overridden
to 16 on the 64-bit size path). -/
def parseBoxesGo (data : List Nat) : Nat → Nat → List MP4Box
  | 0, _ => []
  | fuel + 1, offset =>
    if offset < data.length then
      if data.length - offset < 8 then []
      else
        let size := jsInt32BE data offset
        if size ≤ 0 ∨ size > (data.length : Int) - (offset : Int) then []
        else
          let type := (data.drop (offset + 4)).take 4
          let headerSize0 : Nat := if type = stsdT then 16 else if type = avc1T then 86 else 8
          if size = 1 ∧ data.length - offset < 16 then []
          else
            let boxSize : Int := if size = 1 then jsInt64BE data (offset + 8) else size
            let headerSize : Nat := if size = 1 then 16 else headerSize0
            if boxSize < (headerSize : Int) ∨ (offset : Int) + boxSize > (data.length : Int) then
              []
            else
              { type := type, size := boxSize, start := offset, stop := offset + boxSize.toNat,
                data := (data.drop (offset + headerSize)).take (boxSize.toNat - headerSize) } ::
                parseBoxesGo data fuel (offset + boxSize.toNat)
    else []

/-- `MP4Parser.parseBoxes`. -/
def parseBoxes (data : List Nat) : List MP4Box := parseBoxesGo data (data.length + 1) 0

/-- `MP4Parser.findBox`: first box of the given type. -/
def findBox (boxes : List MP4Box) (t : List Nat) : Option MP4Box :=
  boxes.find? (fun b => b.type == t)

/-- The `findBoxOffset` scan (lines 165-190); `-1` is modelled as `none`.
A size of 0 breaks the scan; a negative size drives the JS loop into
undefined-index reads whose assembled size is 0, ending the scan without
a match, so it is collapsed to `none` here. -/
def findBoxOffsetGo (data t : List Nat) : Nat → Nat → Option Nat
  | 0, _ => none
  | fuel + 1, offset =>
    if (offset : Int) < (data.length : Int) - 8 then
      let size := jsInt32BE data offset
      let boxType := (data.drop (offset + 4)).take 4
      if boxType = t then some offset
      else if size = 0 then none
      else if size = 1 then
        if data.length - offset < 16 then none
        else findBoxOffsetGo data t fuel (offset + 16)
      else if size < 0 then none
      else findBoxOffsetGo data t fuel (offset + size.toNat)
    else none

/-- `MP4Parser.findBoxOffset`. -/
def findBoxOffset (data t : List Nat) : Option Nat :=
  findBoxOffsetGo data t (data.length + 1) 0

/-- `MP4Parser.findVideoTrack` (lines 192-214): the first `trak` child
whose `mdia`/`hdlr` scan yields handler type `vide`; traks failing any
step of the scan are skipped. -/
def findVideoTrack (moovBoxes : List MP4Box) : Option MP4Box :=
  (moovBoxes.filter (fun b => b.type == trakT)).find? fun trak =>
    match findBoxOffset trak.data mdiaT with
    | none => false
    | some mdiaOffset =>
      let mdiaData := trak.data.drop (mdiaOffset + 8)
      match findBoxOffset mdiaData hdlrT with
      | none => false
      | some hdlrOffset =>
        let handlerOffset := hdlrOffset + 16
        if mdiaData.length < handlerOffset + 4 then false
        else (mdiaData.drop handlerOffset).take 4 == videT

/-- The matrix-reading loop of `parseVideoTrack` (lines 233-236): `n`
consecutive `readUint32` calls. -/
def readN32 : Nat → BinaryReader → BinaryReader.ReadResult (List Int)
  | 0, br => Except.ok ([], br)
  | k + 1, br =>
    match br.readUint32 with
    | .error e => .error e
    | .ok (v, br1) =>
      match readN32 k br1 with
      | .error e => .error e
      | .ok (vs, br2) => Except.ok (v :: vs, br2)

/-- The rotation derivation of `parseVideoTrack` (lines 294-300) from the
nine signed 16.16 matrix entries: a = matrix[0], b = matrix[1],
c = matrix[3], d = matrix[4]. The source's two successive `if`s on the
a = d = 0 path have mutually exclusive conditions, written nested here. -/
def rotationFromMatrix (matrix : List Int) : Nat :=
  let a := matrix.getD 0 0
  let b := matrix.getD 1 0
  let c := matrix.getD 3 0
  let d := matrix.getD 4 0
  if a = 0 ∧ d = 0 then
    if b = 65536 ∧ c = -65536 then 90
    else if b = -65536 ∧ c = 65536 then 270
    else 0
  else if a = -65536 ∧ d = -65536 then 180
  else 0

/-- `MP4Parser.parseVideoTrack` (lines 216-351): tkhd header skips, the
matrix and dimensions, the mdia/minf/stbl/stsd descent, pasp display
dimensions, rotation, colour info and fps. -/
def parseVideoTrack (trak : MP4Box) : Except Mp4Err VideoTrackMetadata := do
  let trakBoxes := parseBoxes trak.data
  let tkhd ← (match findBox trakBoxes tkhdT with
    | none => Except.error Mp4Err.noTkhd
    | some b => Except.ok b)
  let r0 : BinaryReader := { data := tkhd.data, offset := 0 }
  let (_, r1) ← liftR (r0.skip 4)
  let (_, r2) ← liftR (r1.skip 16)
  let (_, r3) ← liftR (r2.skip 4)
  let (_, r4) ← liftR (r3.skip 8)
  let (_, r5) ← liftR (r4.skip 4)
  let (_, r6) ← liftR (r5.skip 4)
  let (matrix, r7) ← liftR (readN32 9 r6)
  let (w32, r8) ← liftR r7.readUint32
  let (h32, _) ← liftR r8.readUint32
  let width : Int := jsRound ((w32 : ℚ) / 65536)
  let height : Int := jsRound ((h32 : ℚ) / 65536)
  let mdia ← (match findBox trakBoxes mdiaT with
    | none => Except.error Mp4Err.noMdia
    | some b => Except.ok b)
  let mdiaBoxes := parseBoxes mdia.data
  let minf ← (match findBox mdiaBoxes minfT with
    | none => Except.error Mp4Err.noMinf
    | some b => Except.ok b)
  let minfBoxes := parseBoxes minf.data
  let stbl ← (match findBox minfBoxes stblT with
    | none => Except.error Mp4Err.noStbl
    | some b => Except.ok b)
  let stblBoxes := parseBoxes stbl.data
  let stsd ← (match findBox stblBoxes stsdT with
    | none => Except.error Mp4Err.noStsd
    | some b => Except.ok b)
  let stsdBoxes := parseBoxes stsd.data
  let videoTrack : Option MP4Box :=
    match findBox stsdBoxes avc1T with
    | some b => some b
    | none =>
      match findBox stsdBoxes hev1T with
      | some b => some b
      | none => findBox stsdBoxes mp4vT
  let dims ← (show Except Mp4Err (Int × Int) from
    match videoTrack with
    | none => Except.ok (width, height)
    | some vt =>
      match findBox (parseBoxes vt.data) paspT with
      | none => Except.ok (width, height)
      | some pasp =>
        match BinaryReader.readUint32 { data := pasp.data, offset := 0 } with
        | .error _ => Except.error Mp4Err.readErr
        | .ok (hSpacing, pr1) =>
          match pr1.readUint32 with
          | .error _ => Except.error Mp4Err.readErr
          | .ok (vSpacing, _) =>
            if hSpacing ≠ 0 ∧ vSpacing ≠ 0 then
              Except.ok (jsRound ((width : ℚ) * ((hSpacing : ℚ) / (vSpacing : ℚ))), height)
            else Except.ok (width, height))
  let rotation := rotationFromMatrix matrix
  let colorInfo : VideoColorInfo :=
    match videoTrack with
    | none => getDefaultColorInfo
    | some vt =>
      match findBox (parseBoxes vt.data) colrT with
      | none => getDefaultColorInfo
      | some colr => parseMP4ColorInfo colr.data
  let fps ← (show Except Mp4Err (Option ℚ) from
    match findBox mdiaBoxes mdhdT with
    | none => Except.ok none
    | some mdhd =>
      match BinaryReader.readUint8 { data := mdhd.data, offset := 0 } with
      | .error _ => Except.error Mp4Err.readErr
      | .ok (version, mr1) =>
        match mr1.skip 3 with
        | .error _ => Except.error Mp4Err.readErr
        | .ok (_, mr2) =>
          match (if version = 1 then mr2.skip 16 else mr2.skip 8) with
          | .error _ => Except.error Mp4Err.readErr
          | .ok (_, mr3) =>
            match mr3.readUint32 with
            | .error _ => Except.error Mp4Err.readErr
            | .ok (timescale, mr4) =>
              match (if version = 1 then mr4.readUint64 else mr4.readUint32) with
              | .error _ => Except.error Mp4Err.readErr
              | .ok (duration, _) =>
                match findBox stblBoxes sttsT with
                | none => Except.ok none
                | some stts =>
                  Except.ok (calculateFps (parseMP4TimingInfo stts.data timescale duration)))
  Except.ok ⟨width, height, rotation, dims.1, dims.2, colorInfo, fps⟩

/-- `MP4Parser.parse` (lines 15-39): top-level boxes, the `moov` lookup,
the video-track search, then track parsing, with `container: mp4` added
to the spread track metadata. -/
def parse (data : List Nat) : Except Mp4Err ParsedVideoMetadata :=
  match (readBoxes data).find? (fun b => b.type == moovT) with
  | none => Except.error Mp4Err.noMoov
  | some moov =>
    match findVideoTrack (parseBoxes moov.data) with
    | none => Except.error Mp4Err.noVideoTrack
    | some trak =>
      match parseVideoTrack trak with
      | .error e => Except.error e
      | .ok m => Except.ok { track := m, container := VideoContainer.mp4 }

end MP4Parser

/-- A 20-byte `hdlr` box whose handler type is `soun` (audio). -/
def hdlrSounBytes : List Nat :=
  [0, 0, 0, 20, 104, 100, 108, 114, 0, 0, 0, 0, 0, 0, 0, 0, 115, 111, 117, 110]

/-- A 28-byte `mdia` box holding only the audio `hdlr` box. -/
def mdiaSounBytes : List Nat := [0, 0, 0, 28, 109, 100, 105, 97] ++ hdlrSounBytes

/-- A 36-byte `trak` box holding the audio `mdia` box. -/
def trakSounBytes : List Nat := [0, 0, 0, 36, 116, 114, 97, 107] ++ mdiaSounBytes

/-- A 60-byte well-formed MP4: an `ftyp` box (major brand `isom`) followed
by a `moov` box whose single `trak` is the audio track above — an
audio-only file with no video track. -/
def audioOnlyMp4 : List Nat :=
  [0, 0, 0, 16, 102, 116, 121, 112, 105, 115, 111, 109, 0, 0, 0, 0] ++
    [0, 0, 0, 44, 109, 111, 111, 118] ++ trakSounBytes

end VideoMeta

/-- C1: `isHdr` returns true iff the record matches HDR10
(primaries bt2020, transfer smpte2084, matrix in bt2020nc/bt2020c/ictcp),
HLG (primaries bt2020, transfer hlg or arib-std-b67), or Dolby Vision
(transfer smpte2084, matrix ictcp); every other combination gives false, and
when the transfer characteristic is absent (which is implied whenever all
relevant fields are absent) the result is false. -/
theorem c1_isHdr_iff (ci : VideoMeta.VideoColorInfo) :
    (VideoMeta.isHdr ci = true ↔
      ((ci.primaries = some "bt2020" ∧
          ci.transferCharacteristics = some "smpte2084" ∧
          (ci.matrixCoefficients = some "bt2020nc" ∨
            ci.matrixCoefficients = some "bt2020c" ∨
            ci.matrixCoefficients = some "ictcp")) ∨
        (ci.primaries = some "bt2020" ∧
          (ci.transferCharacteristics = some "hlg" ∨
            ci.transferCharacteristics = some "arib-std-b67")) ∨
        (ci.transferCharacteristics = some "smpte2084" ∧
          ci.matrixCoefficients = some "ictcp"))) ∧
    (ci.transferCharacteristics = none → VideoMeta.isHdr ci = false) := by
  constructor
  · simp only [VideoMeta.isHdr, Bool.or_eq_true, Bool.and_eq_true, decide_eq_true_eq]
    tauto
  · intro h
    simp [VideoMeta.isHdr, h]

/-- Witness for C1: the theorem applied at the all-absent record discharges
its hypothesis and evaluates `isHdr` to false there. -/
theorem c1_isHdr_iff_witness :
    VideoMeta.isHdr
      { matrixCoefficients := none, transferCharacteristics := none,
        primaries := none, fullRange := none } = false :=
  (c1_isHdr_iff
      { matrixCoefficients := none, transferCharacteristics := none,
        primaries := none, fullRange := none }).2 rfl

/-- When 4 bytes are available `readUint32` succeeds and advances by 4. -/
theorem readUint32_ok (br : VideoMeta.BinaryReader)
    (h : br.offset + 4 ≤ br.data.length) :
    br.readUint32 = .ok (VideoMeta.toInt32 (br.data.getD br.offset 0 * 16777216 +
        br.data.getD (br.offset + 1) 0 * 65536 +
        br.data.getD (br.offset + 2) 0 * 256 + br.data.getD (br.offset + 3) 0),
      { br with offset := br.offset + 4 }) := by
  unfold VideoMeta.BinaryReader.readUint32 VideoMeta.BinaryReader.length
  rw [if_neg (by omega)]

/-- C10: every primitive operation of the binary reader checks its bounds
before mutating the cursor, so whenever an operation throws, the reader
state carried by the error equals the state before the call — a caller can
catch the error and continue from the same position. -/
theorem c10_reader_unchanged_on_error
    (br er : VideoMeta.BinaryReader) (n : Nat) (off d : Int) :
    (br.read n = .error er → er = br) ∧
    (br.readUint8 = .error er → er = br) ∧
    (br.readUint16 = .error er → er = br) ∧
    (br.readUint32 = .error er → er = br) ∧
    (br.readUint64 = .error er → er = br) ∧
    (br.readString n = .error er → er = br) ∧
    (br.seek off = .error er → er = br) ∧
    (br.skip d = .error er → er = br) := by
  refine ⟨?_, ?_, ?_, ?_, ?_, ?_, ?_, ?_⟩ <;> intro h
  · unfold VideoMeta.BinaryReader.read at h
    split at h <;> simp_all
  · unfold VideoMeta.BinaryReader.readUint8 at h
    split at h <;> simp_all
  · unfold VideoMeta.BinaryReader.readUint16 at h
    split at h <;> simp_all
  · unfold VideoMeta.BinaryReader.readUint32 at h
    split at h <;> simp_all
  · -- readUint64: the two inner readUint32 calls sit inside the 8-byte guard
    unfold VideoMeta.BinaryReader.readUint64 VideoMeta.BinaryReader.length at h
    split at h
    · simp_all
    · rename_i hle
      rw [readUint32_ok br (by omega)] at h
      dsimp only at h
      rw [readUint32_ok { br with offset := br.offset + 4 } (by simp; omega)] at h
      simp at h
  · unfold VideoMeta.BinaryReader.readString VideoMeta.BinaryReader.read at h
    split at h <;> simp_all
  · unfold VideoMeta.BinaryReader.seek at h
    split at h <;> simp_all
  · unfold VideoMeta.BinaryReader.skip at h
    dsimp only at h
    split at h <;> simp_all

/-- Witness for C10: on the empty buffer every operation throws (seek to -1,
skip by -1, reads of any width), and the theorem instantiated there
discharges each hypothesis by evaluation. -/
theorem c10_reader_unchanged_on_error_witness :
    (({ data := [], offset := 0 } : VideoMeta.BinaryReader).read 1 =
        .error { data := [], offset := 0 }) ∧
    (({ data := [], offset := 0 } : VideoMeta.BinaryReader) =
        { data := [], offset := 0 } ∧
      ({ data := [], offset := 0 } : VideoMeta.BinaryReader) =
        { data := [], offset := 0 }) := by
  refine ⟨rfl, ?_, ?_⟩
  · exact (c10_reader_unchanged_on_error { data := [], offset := 0 }
      { data := [], offset := 0 } 1 (-1) (-1)).1 rfl
  · exact (c10_reader_unchanged_on_error { data := [], offset := 0 }
      { data := [], offset := 0 } 1 (-1) (-1)).2.2.2.2.2.2.1 rfl

/-- Indexing past a prefix lands in the suffix. -/
theorem getD_append_cons (pre rest : List Nat) (x d k : Nat) :
    (pre ++ x :: rest).getD (pre.length + k) d = (x :: rest).getD k d := by
  induction pre with
  | nil => simp
  | cons p ps ih =>
    simp only [List.cons_append, List.length_cons]
    rw [show ps.length + 1 + k = (ps.length + k) + 1 by omega, List.getD_cons_succ]
    exact ih

/-- `jsShl8Or` is plain positional accumulation while the value stays below
2^23 (no int32 wrap). -/
theorem jsShl8Or_small (v : Int) (b : Nat) (hv : 0 ≤ v) (hv2 : v < 8388608)
    (hb : b < 256) : VideoMeta.jsShl8Or v b = v * 256 + b := by
  unfold VideoMeta.jsShl8Or VideoMeta.toUint32 VideoMeta.toInt32
  rw [Int.emod_eq_of_lt hv (by omega)]
  rw [Nat.mod_eq_of_lt (by omega)]
  rw [if_pos (by omega)]
  omega

/-- C9 counterexample: reading the two bytes 42 82 (the DocType element ID,
a well-formed 2-byte EBML ID) does NOT return the inclusive encoding
0x4282: `readVint` masks the length-marker bit and returns 0x282. -/
theorem c9_counterexample :
    VideoMeta.BinaryReader.readVint { data := [66, 130], offset := 0 } =
      .ok (642, { data := [66, 130], offset := 2 }) ∧ (642 : Int) ≠ 16770 := by
  exact ⟨rfl, by decide⟩

/-- Unfolding of one `readVint` accumulation step. -/
theorem readVintLoop_succ (k : Nat) (v : Int) (br : VideoMeta.BinaryReader) :
    VideoMeta.BinaryReader.readVintLoop (k + 1) v br =
      if br.canRead 1 then
        VideoMeta.BinaryReader.readVintLoop k
          (VideoMeta.jsShl8Or v (br.data.getD br.offset 0))
          { br with offset := br.offset + 1 }
      else (v, br) := rfl

/-- The `readVint` accumulation loop over a run of bytes that sits fully in
the buffer folds `jsShl8Or` over exactly that run and advances past it. -/
theorem readVintLoop_bytes (own : List Nat) : ∀ (p t : List Nat) (v : Int),
    VideoMeta.BinaryReader.readVintLoop own.length v
        { data := p ++ own ++ t, offset := p.length } =
      (own.foldl VideoMeta.jsShl8Or v,
        { data := p ++ own ++ t, offset := p.length + own.length }) := by
  induction own with
  | nil =>
    intro p t v
    simp [VideoMeta.BinaryReader.readVintLoop]
  | cons x xs ih =>
    intro p t v
    have hcr : ({ data := p ++ (x :: xs) ++ t, offset := p.length } :
        VideoMeta.BinaryReader).canRead 1 = true := by
      simp [VideoMeta.BinaryReader.canRead, VideoMeta.BinaryReader.length] <;> omega
    have hg : (p ++ (x :: xs) ++ t).getD p.length 0 = x := by
      have e : p ++ (x :: xs) ++ t = p ++ x :: (xs ++ t) := by simp
      rw [e]
      simpa using getD_append_cons p (xs ++ t) x 0 0
    rw [show (x :: xs).length = xs.length + 1 from rfl]
    rw [readVintLoop_succ, if_pos hcr, hg]
    have e1 : p ++ (x :: xs) ++ t = (p ++ [x]) ++ xs ++ t := by simp
    have e2 : p.length + 1 = (p ++ [x]).length := by simp
    rw [e1, e2, ih (p ++ [x]) t (VideoMeta.jsShl8Or v x)]
    simp [Prod.mk.injEq, VideoMeta.BinaryReader.mk.injEq, List.foldl_cons]
    omega

/-- While no int32 wrap can occur, folding `jsShl8Or` is the plain
big-endian accumulation. -/
theorem foldl_jsShl8Or_eq (l : List Nat) : ∀ v : Nat, (∀ b ∈ l, b < 256) →
    (v + 1) * 256 ^ l.length ≤ 2147483648 →
    l.foldl VideoMeta.jsShl8Or ((v : Nat) : Int) =
      ((l.foldl (fun a b => a * 256 + b) v : Nat) : Int) := by
  induction l with
  | nil => intro v _ _; rfl
  | cons x xs ih =>
    intro v hl hb
    have hx : x < 256 := hl x (by simp)
    have hb2 : (v + 1) * 256 ^ (xs.length + 1) ≤ 2147483648 := by
      simpa using hb
    have hp : (v + 1) * 256 ≤ (v + 1) * 256 ^ (xs.length + 1) := by
      have h256 : 256 ≤ 256 ^ (xs.length + 1) := by
        calc 256 = 256 ^ 1 := (pow_one 256).symm
          _ ≤ 256 ^ (xs.length + 1) := Nat.pow_le_pow_right (by omega) (by omega)
      exact Nat.mul_le_mul_left _ h256
    have hv23 : ((v : Nat) : Int) < 8388608 := by
      have : (v + 1) * 256 ≤ 2147483648 := le_trans hp hb2
      omega
    rw [List.foldl_cons, List.foldl_cons]
    rw [jsShl8Or_small _ _ (by positivity) hv23 hx]
    rw [show ((v : Nat) : Int) * 256 + (x : Int) = ((v * 256 + x : Nat) : Int) by
      push_cast; ring]
    refine ih (v * 256 + x) (fun b hbm => hl b (by simp [hbm])) ?_
    calc (v * 256 + x + 1) * 256 ^ xs.length
        ≤ ((v + 1) * 256) * 256 ^ xs.length := Nat.mul_le_mul_right _ (by omega)
      _ = (v + 1) * 256 ^ (xs.length + 1) := by ring
      _ ≤ 2147483648 := hb2

/-- `bigEndianNat` of a cons is the fold seeded with the head. -/
theorem bigEndianNat_cons (x : Nat) (l : List Nat) :
    VideoMeta.bigEndianNat (x :: l) = l.foldl (fun a b => a * 256 + b) x := by
  simp [VideoMeta.bigEndianNat]

/-- C9 (amended): over a buffer `pre ++ fb :: rest` with the cursor on `fb`,
`readVint` returns the inclusive big-endian 4-byte ID only for the
special-cased first bytes 0x1A/0x18/0x16 (when at least 4 bytes remain);
for every other first byte with VINT length N ≤ 4 and the N-1 payload
bytes present, it returns the value with the length-marker bit masked out:
big-endian of `(fb &&& (0xff >> N)) :: rest.take (N-1)`. -/
theorem c9_readVint_spec (pre rest : List Nat) (fb : Nat)
    (hfb : fb < 256) (hrest : ∀ b ∈ rest, b < 256) :
    ((fb = 26 ∨ fb = 24 ∨ fb = 22) → 3 ≤ rest.length →
      VideoMeta.BinaryReader.readVint { data := pre ++ fb :: rest, offset := pre.length } =
        .ok ((VideoMeta.bigEndianNat (fb :: rest.take 3) : Int),
          { data := pre ++ fb :: rest, offset := pre.length + 4 })) ∧
    (¬(fb = 26 ∨ fb = 24 ∨ fb = 22) →
      VideoMeta.BinaryReader.vintLength fb ≤ 4 →
      VideoMeta.BinaryReader.vintLength fb - 1 ≤ rest.length →
      VideoMeta.BinaryReader.readVint { data := pre ++ fb :: rest, offset := pre.length } =
        .ok ((VideoMeta.bigEndianNat ((fb &&& (255 >>> VideoMeta.BinaryReader.vintLength fb)) ::
            rest.take (VideoMeta.BinaryReader.vintLength fb - 1)) : Int),
          { data := pre ++ fb :: rest,
            offset := pre.length + VideoMeta.BinaryReader.vintLength fb })) := by
  have toInt32_small : ∀ w : Nat, w < 2147483648 → VideoMeta.toInt32 w = (w : Int) := by
    intro w h
    unfold VideoMeta.toInt32
    rw [Nat.mod_eq_of_lt (by omega), if_pos h]
  constructor
  · intro hfb hlen
    rcases rest with _ | ⟨a, rest⟩
    · exact absurd hlen (by simp)
    rcases rest with _ | ⟨b, rest⟩
    · exact absurd hlen (by simp)
    rcases rest with _ | ⟨c, t⟩
    · exact absurd hlen (by simp)
    have ha : a < 256 := hrest a (by simp)
    have hb : b < 256 := hrest b (by simp)
    have hc : c < 256 := hrest c (by simp)
    have g0 : (pre ++ fb :: a :: b :: c :: t).getD pre.length 0 = fb := by
      simpa using getD_append_cons pre (a :: b :: c :: t) fb 0 0
    have g1 : (pre ++ fb :: a :: b :: c :: t).getD (pre.length + 1) 0 = a := by
      simpa using getD_append_cons pre (a :: b :: c :: t) fb 0 1
    have g2 : (pre ++ fb :: a :: b :: c :: t).getD (pre.length + 2) 0 = b := by
      simpa using getD_append_cons pre (a :: b :: c :: t) fb 0 2
    have g3 : (pre ++ fb :: a :: b :: c :: t).getD (pre.length + 3) 0 = c := by
      simpa using getD_append_cons pre (a :: b :: c :: t) fb 0 3
    have hcr1 : ({ data := pre ++ fb :: a :: b :: c :: t, offset := pre.length } :
        VideoMeta.BinaryReader).canRead 1 = true := by
      simp [VideoMeta.BinaryReader.canRead, VideoMeta.BinaryReader.length] <;> omega
    have hcr4 : ({ data := pre ++ fb :: a :: b :: c :: t, offset := pre.length } :
        VideoMeta.BinaryReader).canRead 4 = true := by
      simp [VideoMeta.BinaryReader.canRead, VideoMeta.BinaryReader.length] <;> omega
    rcases hfb with rfl | rfl | rfl <;>
      (unfold VideoMeta.BinaryReader.readVint
       rw [hcr1]
       rw [if_neg (show ¬(true = false) by simp)]
       simp only [g0, g1, g2, g3, hcr4]
       norm_num
       rw [toInt32_small _ (by omega)]
       simp [VideoMeta.bigEndianNat, VideoMeta.BinaryReader.mk.injEq]) <;>
      omega
  · intro hfb hN hlen
    push_neg at hfb
    obtain ⟨hne1, hne2, hne3⟩ := hfb
    have e1 : (fb == 26) = false := beq_eq_false_iff_ne.mpr hne1
    have e2 : (fb == 24) = false := beq_eq_false_iff_ne.mpr hne2
    have e3 : (fb == 22) = false := beq_eq_false_iff_ne.mpr hne3
    have hvpos : 1 ≤ VideoMeta.BinaryReader.vintLength fb := by
      unfold VideoMeta.BinaryReader.vintLength
      split_ifs <;> omega
    have hv : VideoMeta.BinaryReader.vintLength fb = 1 ∨
        VideoMeta.BinaryReader.vintLength fb = 2 ∨
        VideoMeta.BinaryReader.vintLength fb = 3 ∨
        VideoMeta.BinaryReader.vintLength fb = 4 := by omega
    rcases hv with hv | hv | hv | hv
    · -- one-byte VINT: no payload bytes
      have g0 : (pre ++ fb :: rest).getD pre.length 0 = fb := by
        simpa using getD_append_cons pre rest fb 0 0
      have hcr1 : ({ data := pre ++ fb :: rest, offset := pre.length } :
          VideoMeta.BinaryReader).canRead 1 = true := by
        simp [VideoMeta.BinaryReader.canRead, VideoMeta.BinaryReader.length] <;> omega
      unfold VideoMeta.BinaryReader.readVint
      rw [hcr1]
      rw [if_neg (show ¬(true = false) by simp)]
      simp only [g0, e1, e2, e3, Bool.or_false, Bool.and_false, hv]
      rw [if_neg (show ¬(false = true) by simp)]
      norm_num
      simp [VideoMeta.BinaryReader.readVintLoop, VideoMeta.bigEndianNat]
    · -- two-byte VINT
      rw [hv] at hlen
      have g0 : (pre ++ fb :: rest).getD pre.length 0 = fb := by
        simpa using getD_append_cons pre rest fb 0 0
      have hcr1 : ({ data := pre ++ fb :: rest, offset := pre.length } :
          VideoMeta.BinaryReader).canRead 1 = true := by
        simp [VideoMeta.BinaryReader.canRead, VideoMeta.BinaryReader.length] <;> omega
      have hmask : fb &&& 63 ≤ 63 := Nat.and_le_right
      have hlen1 : (rest.take 1).length = 1 := by
        rw [List.length_take]
        omega
      have hsplit : pre ++ fb :: rest = (pre ++ [fb]) ++ rest.take 1 ++ rest.drop 1 := by
        rw [List.append_assoc, List.take_append_drop]
        simp
      have hL := readVintLoop_bytes (rest.take 1) (pre ++ [fb]) (rest.drop 1)
        ((fb &&& 63 : Nat) : Int)
      rw [hlen1] at hL
      rw [show (pre ++ [fb]).length = pre.length + 1 by simp] at hL
      rw [← hsplit] at hL
      have hfold := foldl_jsShl8Or_eq (rest.take 1) (fb &&& 63)
        (fun b hbm => hrest b (List.take_subset _ _ hbm))
        (by
          rw [hlen1, show (256 : Nat) ^ 1 = 256 from rfl]
          omega)
      unfold VideoMeta.BinaryReader.readVint
      rw [hcr1]
      rw [if_neg (show ¬(true = false) by simp)]
      simp only [g0, e1, e2, e3, Bool.or_false, Bool.and_false, hv]
      rw [if_neg (show ¬(false = true) by simp)]
      norm_num
      rw [show (255 : Nat) >>> 2 = 63 from rfl]
      rw [hL, hfold, bigEndianNat_cons]
    · -- three-byte VINT
      rw [hv] at hlen
      have g0 : (pre ++ fb :: rest).getD pre.length 0 = fb := by
        simpa using getD_append_cons pre rest fb 0 0
      have hcr1 : ({ data := pre ++ fb :: rest, offset := pre.length } :
          VideoMeta.BinaryReader).canRead 1 = true := by
        simp [VideoMeta.BinaryReader.canRead, VideoMeta.BinaryReader.length] <;> omega
      have hmask : fb &&& 31 ≤ 31 := Nat.and_le_right
      have hlen1 : (rest.take 2).length = 2 := by
        rw [List.length_take]
        omega
      have hsplit : pre ++ fb :: rest = (pre ++ [fb]) ++ rest.take 2 ++ rest.drop 2 := by
        rw [List.append_assoc, List.take_append_drop]
        simp
      have hL := readVintLoop_bytes (rest.take 2) (pre ++ [fb]) (rest.drop 2)
        ((fb &&& 31 : Nat) : Int)
      rw [hlen1] at hL
      rw [show (pre ++ [fb]).length = pre.length + 1 by simp] at hL
      rw [← hsplit] at hL
      have hfold := foldl_jsShl8Or_eq (rest.take 2) (fb &&& 31)
        (fun b hbm => hrest b (List.take_subset _ _ hbm))
        (by
          rw [hlen1, show (256 : Nat) ^ 2 = 65536 from rfl]
          omega)
      unfold VideoMeta.BinaryReader.readVint
      rw [hcr1]
      rw [if_neg (show ¬(true = false) by simp)]
      simp only [g0, e1, e2, e3, Bool.or_false, Bool.and_false, hv]
      rw [if_neg (show ¬(false = true) by simp)]
      norm_num
      rw [show (255 : Nat) >>> 3 = 31 from rfl]
      rw [hL, hfold, bigEndianNat_cons]
    · -- four-byte VINT
      rw [hv] at hlen
      have g0 : (pre ++ fb :: rest).getD pre.length 0 = fb := by
        simpa using getD_append_cons pre rest fb 0 0
      have hcr1 : ({ data := pre ++ fb :: rest, offset := pre.length } :
          VideoMeta.BinaryReader).canRead 1 = true := by
        simp [VideoMeta.BinaryReader.canRead, VideoMeta.BinaryReader.length] <;> omega
      have hmask : fb &&& 15 ≤ 15 := Nat.and_le_right
      have hlen1 : (rest.take 3).length = 3 := by
        rw [List.length_take]
        omega
      have hsplit : pre ++ fb :: rest = (pre ++ [fb]) ++ rest.take 3 ++ rest.drop 3 := by
        rw [List.append_assoc, List.take_append_drop]
        simp
      have hL := readVintLoop_bytes (rest.take 3) (pre ++ [fb]) (rest.drop 3)
        ((fb &&& 15 : Nat) : Int)
      rw [hlen1] at hL
      rw [show (pre ++ [fb]).length = pre.length + 1 by simp] at hL
      rw [← hsplit] at hL
      have hfold := foldl_jsShl8Or_eq (rest.take 3) (fb &&& 15)
        (fun b hbm => hrest b (List.take_subset _ _ hbm))
        (by
          rw [hlen1, show (256 : Nat) ^ 3 = 16777216 from rfl]
          omega)
      unfold VideoMeta.BinaryReader.readVint
      rw [hcr1]
      rw [if_neg (show ¬(true = false) by simp)]
      simp only [g0, e1, e2, e3, Bool.or_false, Bool.and_false, hv]
      rw [if_neg (show ¬(false = true) by simp)]
      norm_num
      rw [show (255 : Nat) >>> 4 = 15 from rfl]
      rw [hL, hfold, bigEndianNat_cons]

/-- Witness for C9 (amended): the special case decodes 1A 45 DF A3 to the
inclusive ID 0x1A45DFA3, and the general case decodes 55 B1 to the masked
value 0x15B1. -/
theorem c9_readVint_spec_witness :
    (VideoMeta.BinaryReader.readVint { data := [26, 69, 223, 163], offset := 0 } =
      .ok (440786851, { data := [26, 69, 223, 163], offset := 4 })) ∧
    (VideoMeta.BinaryReader.readVint { data := [85, 177], offset := 0 } =
      .ok (5553, { data := [85, 177], offset := 2 })) := by
  constructor
  · have h := (c9_readVint_spec [] [69, 223, 163] 26 (by decide) (by decide)).1
      (Or.inl rfl) (by decide)
    simpa [VideoMeta.bigEndianNat] using h
  · have h := (c9_readVint_spec [] [177] 85 (by decide) (by decide)).2
      (by decide) (by decide) (by decide)
    simpa [VideoMeta.bigEndianNat, VideoMeta.BinaryReader.vintLength] using h


/-- C3: a Transport Stream buffer (0x47 at offsets 0, 188 and 376) IS
classified `ts` by `detectContainer` when given the whole buffer — but
`parseContainer` only hands the detection the first 32 bytes, where
offsets 188/376 read `undefined`, so the dispatcher classifies the same
input `unknown` and the `ts` switch arm is unreachable: the input is
never routed to the Transport Stream parser. -/
theorem c3_ts_dispatch_bug :
    VideoMeta.detectContainer (List.replicate 377 71) = .ts ∧
    VideoMeta.dispatchDetect (List.replicate 377 71) = .unknown ∧
    VideoMeta.routeOf2 (VideoMeta.dispatchDetect (List.replicate 377 71)) = none := by
  refine ⟨?_, ?_, ?_⟩ <;> decide

/-- C4: an input starting with `RIFF` (and not detected as TS) is
classified `avi` by the dispatcher's detection, but neither revision of
the `parseContainer` switch has an `avi` case, so the detected tag falls
to the `default` arm and the parse throws `Unsupported container format`
instead of running the AVI parser. -/
theorem c4_avi_dispatch_bug :
    VideoMeta.dispatchDetect VideoMeta.aviHeaderBytes = .avi ∧
    VideoMeta.routeOf3 VideoMeta.VideoContainer.avi = none ∧
    VideoMeta.routeOf2 VideoMeta.VideoContainer.avi = none := by
  refine ⟨?_, ?_, ?_⟩ <;> decide

/-- C8 counterexample: a codec-configuration slice with
configurationVersion 1 and AVC profile_idc 110 (bytes 01 6E 00 00) is NOT
routed to the AVC handler by `parseMP4ColorInfo` (which dispatches only on
profile bytes 0x64/0x4D/0x42), so it falls through to the colour-type
switch and yields the all-absent default — not the claimed HDR10 record;
and even the AVC handler itself maps profile 110 to transfer `bt2100-pq`,
not `smpte2084`. -/
theorem c8_counterexample :
    VideoMeta.parseMP4ColorInfo [1, 110, 0, 0] = VideoMeta.getDefaultColorInfo ∧
    (VideoMeta.parseMP4ColorInfo [1, 110, 0, 0]).primaries ≠ some "bt2020" ∧
    (VideoMeta.parseMP4ColorInfo [1, 110, 0, 0]).transferCharacteristics ≠
      some "smpte2084" ∧
    VideoMeta.parseAVCConfig { data := [1, 110, 0, 0], offset := 0 } =
      { matrixCoefficients := some "bt2020nc"
        transferCharacteristics := some "bt2100-pq"
        primaries := some "bt2020"
        fullRange := some true } := by
  refine ⟨?_, ?_, ?_, ?_⟩ <;> decide

/-- C8 (amended): the AVC handler classifies a config record
`[1, p, c, l, ...]` by profile: 110/122 give the HDR assumption with
primaries bt2020 but transfer `bt2100-pq` (not `smpte2084`); 100/118/44
give BT.709 SDR; 66/77/82/88 give BT.601 SDR; every other profile gives
the all-absent default. And `parseMP4ColorInfo` never reaches the AVC
handler for a profile-110 record: every such slice returns the default. -/
theorem c8_avc_color_spec :
    (∀ (p c l : Nat) (rest : List Nat),
      VideoMeta.parseAVCConfig { data := 1 :: p :: c :: l :: rest, offset := 0 } =
        (if p = 110 ∨ p = 122 then
          { matrixCoefficients := some "bt2020nc"
            transferCharacteristics := some "bt2100-pq"
            primaries := some "bt2020"
            fullRange := some true }
         else if p = 100 ∨ p = 118 ∨ p = 44 then
          { matrixCoefficients := some "bt709"
            transferCharacteristics := some "bt709"
            primaries := some "bt709"
            fullRange := some false }
         else if p = 66 ∨ p = 77 ∨ p = 82 ∨ p = 88 then
          { matrixCoefficients := some "bt601"
            transferCharacteristics := some "bt601"
            primaries := some "bt601"
            fullRange := some false }
         else VideoMeta.getDefaultColorInfo)) ∧
    (∀ rest : List Nat,
      VideoMeta.parseMP4ColorInfo (1 :: 110 :: rest) =
        VideoMeta.getDefaultColorInfo) := by
  constructor
  · intro p c l rest
    have e0 : ({ data := 1 :: p :: c :: l :: rest, offset := 0 } :
        VideoMeta.BinaryReader).readUint8 =
        .ok (1, { data := 1 :: p :: c :: l :: rest, offset := 1 }) := by
      unfold VideoMeta.BinaryReader.readUint8 VideoMeta.BinaryReader.length
      rw [if_neg (by simp only [List.length_cons]; omega)]
      simp
    have e1 : ({ data := 1 :: p :: c :: l :: rest, offset := 1 } :
        VideoMeta.BinaryReader).readUint8 =
        .ok (p, { data := 1 :: p :: c :: l :: rest, offset := 2 }) := by
      unfold VideoMeta.BinaryReader.readUint8 VideoMeta.BinaryReader.length
      rw [if_neg (by simp only [List.length_cons]; omega)]
      simp
    have e2 : ({ data := 1 :: p :: c :: l :: rest, offset := 2 } :
        VideoMeta.BinaryReader).readUint8 =
        .ok (c, { data := 1 :: p :: c :: l :: rest, offset := 3 }) := by
      unfold VideoMeta.BinaryReader.readUint8 VideoMeta.BinaryReader.length
      rw [if_neg (by simp only [List.length_cons]; omega)]
      simp
    have e3 : ({ data := 1 :: p :: c :: l :: rest, offset := 3 } :
        VideoMeta.BinaryReader).readUint8 =
        .ok (l, { data := 1 :: p :: c :: l :: rest, offset := 4 }) := by
      unfold VideoMeta.BinaryReader.readUint8 VideoMeta.BinaryReader.length
      rw [if_neg (by simp only [List.length_cons]; omega)]
      simp
    unfold VideoMeta.parseAVCConfig
    rw [e0]
    dsimp only
    rw [e1]
    dsimp only
    rw [e2]
    dsimp only
    rw [e3]
  · intro rest
    rcases rest with _ | ⟨r0, rest⟩
    · decide
    rcases rest with _ | ⟨r1, t⟩
    · unfold VideoMeta.parseMP4ColorInfo VideoMeta.parseColourTypePath
      simp [VideoMeta.BinaryReader.readString, VideoMeta.BinaryReader.read,
        VideoMeta.BinaryReader.length]
    · unfold VideoMeta.parseMP4ColorInfo VideoMeta.parseColourTypePath
      simp only [List.get?]
      norm_num
      unfold VideoMeta.BinaryReader.readString VideoMeta.BinaryReader.read
        VideoMeta.BinaryReader.length
      rw [if_neg (by simp only [List.length_cons]; omega)]
      simp [VideoMeta.nclxTag, VideoMeta.nclcTag, VideoMeta.mdcvTag, VideoMeta.clliTag,
        VideoMeta.doviTag, VideoMeta.rICCTag, VideoMeta.profTag]

/-- Folding addition of a projection is the starting value plus the sum of
the mapped list. -/
theorem foldl_add_map (f : Int × Int → Int) (l : List (Int × Int)) : ∀ acc : Int,
    l.foldl (fun a e => a + f e) acc = acc + (l.map f).sum := by
  induction l with
  | nil => intro acc; simp
  | cons x xs ih =>
    intro acc
    simp only [List.foldl_cons, List.map_cons, List.sum_cons, ih (acc + f x)]
    ring

/-- `find?` over constant-tolerance pairs is `find?` over the plain values. -/
theorem find?_map_pairs (l : List ℚ) (c : ℚ) (q : ℚ × ℚ → Bool) (p : ℚ → Bool)
    (h : ∀ v, q (v, c) = p v) :
    (l.map (fun v => (v, c))).find? q = (l.find? p).map (fun v => (v, c)) := by
  induction l with
  | nil => rfl
  | cons a as ih =>
    simp only [List.map_cons, List.find?]
    rw [h a]
    cases hp : p a
    · simpa using ih
    · simp

/-- The code's snapping stage equals the snapping stage as the claim words
it (nominal set within ±0.01, then double/half, then 3-decimal rounding). -/
theorem snapFps_eq_claimSnap (x : ℚ) : VideoMeta.snapFps x = VideoMeta.claimSnap x := by
  unfold VideoMeta.snapFps VideoMeta.claimSnap
  rw [show VideoMeta.commonFpsTol =
      VideoMeta.commonFpsValues.map (fun v => (v, (0.01 : ℚ))) from rfl]
  rw [find?_map_pairs VideoMeta.commonFpsValues 0.01 _ (fun v => |x - v| ≤ 0.01)
    (fun v => by norm_num)]
  rw [find?_map_pairs VideoMeta.commonFpsValues 0.01 _
    (fun v => |x / 2 - v| ≤ 0.01 ∨ |x * 2 - v| ≤ 0.01) (fun v => by norm_num)]
  cases h1 : VideoMeta.commonFpsValues.find? (fun v => |x - v| ≤ 0.01) with
  | some v => simp
  | none =>
    simp only [Option.map_none]
    cases h2 : VideoMeta.commonFpsValues.find?
        (fun v => |x / 2 - v| ≤ 0.01 ∨ |x * 2 - v| ≤ 0.01) with
    | some v => simp
    | none => simp

/-- Helper: when the direct nominal scan hits, the snap is that nominal. -/
theorem snapFps_of_stage1 (x v t : ℚ)
    (h : VideoMeta.commonFpsTol.find? (fun vt => |x - vt.1| ≤ vt.2) = some (v, t)) :
    VideoMeta.snapFps x = some v := by
  unfold VideoMeta.snapFps
  rw [h]

/-- C5: for a TimingInfo with a non-empty sample table, a non-zero
timescale, and strictly positive counts and durations (the TimingInfo
invariant), `calculateFps` returns exactly the claim's cascade applied to
fps0 = timescale / (Σ(count·delta)/Σ(count)): the nominal within ±0.01,
else a nominal matched by fps0/2 or fps0·2 within 0.01, else fps0 rounded
to 3 decimals on [10, 240], else absent. -/
theorem c5_calculateFps_spec (t : VideoMeta.TimingInfo)
    (h1 : t.sampleTable ≠ [])
    (h2 : t.timescale ≠ 0)
    (h3 : ∀ e ∈ t.sampleTable, 0 < e.1 ∧ 0 < e.2) :
    VideoMeta.calculateFps (some t) = VideoMeta.claimSnap (VideoMeta.claimFps t) := by
  have hTD : t.sampleTable.foldl (fun acc e => acc + e.2 * e.1) (0 : Int) =
      (t.sampleTable.map (fun e => e.2 * e.1)).sum := by
    simpa using foldl_add_map (fun e => e.2 * e.1) t.sampleTable 0
  have hTF : t.sampleTable.foldl (fun acc e => acc + e.1) (0 : Int) =
      (t.sampleTable.map (fun e => e.1)).sum := by
    simpa using foldl_add_map (fun e => e.1) t.sampleTable 0
  have hpos1 : 0 < (t.sampleTable.map (fun e => e.2 * e.1)).sum := by
    apply List.sum_pos
    · intro a ha
      obtain ⟨e, he, rfl⟩ := List.mem_map.mp ha
      exact mul_pos (h3 e he).2 (h3 e he).1
    · simpa using h1
  have hpos2 : 0 < (t.sampleTable.map (fun e => e.1)).sum := by
    apply List.sum_pos
    · intro a ha
      obtain ⟨e, he, rfl⟩ := List.mem_map.mp ha
      exact (h3 e he).1
    · simpa using h1
  have hmapeq : t.sampleTable.map (fun e => e.2 * e.1) =
      t.sampleTable.map (fun e => e.1 * e.2) := by
    apply List.map_congr_left
    intro e _
    ring
  unfold VideoMeta.calculateFps
  dsimp only
  rw [if_neg (by
    push_neg
    exact ⟨by simpa using h1, h2⟩)]
  rw [hTD, hTF]
  rw [if_neg (by push_neg; exact ⟨hpos1.ne', hpos2.ne'⟩)]
  rw [snapFps_eq_claimSnap]
  unfold VideoMeta.claimFps
  rw [hmapeq]

/-- Witness for C5: the 30000-timescale track with one stts entry of 300
samples of duration 1000 has fps0 = 30, and both sides give 30 fps. -/
theorem c5_calculateFps_spec_witness :
    VideoMeta.calculateFps (some ⟨30000, [(300, 1000)], 300000, 300⟩) =
      VideoMeta.claimSnap (VideoMeta.claimFps ⟨30000, [(300, 1000)], 300000, 300⟩) ∧
    VideoMeta.calculateFps (some ⟨30000, [(300, 1000)], 300000, 300⟩) = some 30 := by
  have hmain := c5_calculateFps_spec ⟨30000, [(300, 1000)], 300000, 300⟩
    (by decide) (by decide) (by decide)
  have hfps : VideoMeta.claimFps ⟨30000, [(300, 1000)], 300000, 300⟩ = 30 := by
    unfold VideoMeta.claimFps
    norm_num
  have hsnap : VideoMeta.claimSnap (30 : ℚ) = some 30 := by
    have h1 : VideoMeta.commonFpsValues.find? (fun v => |(30 : ℚ) - v| ≤ 0.01) =
        some 30 := by
      simp only [VideoMeta.commonFpsValues, List.find?]
      norm_num [abs_le]
    unfold VideoMeta.claimSnap
    rw [h1]
  exact ⟨hmain, hmain.trans (by rw [hfps, hsnap])⟩

/-- C7 counterexample: the snapping stage is NOT idempotent: 29.9596 has no
nominal match (nearest is 29.97 at distance 0.0104) and no double/half
match, so the rounding stage gives 29.96; but snapping 29.96 hits the
nominal 29.97 (distance exactly 0.01), so snap(snap(29.9596)) = 29.97
while snap(29.9596) = 29.96. -/
theorem c7_counterexample :
    VideoMeta.snapFps (29.9596 : ℚ) = some (29.96 : ℚ) ∧
    VideoMeta.snapFps (29.96 : ℚ) = some (29.97 : ℚ) ∧
    (VideoMeta.snapFps (29.9596 : ℚ)).bind VideoMeta.snapFps ≠
      VideoMeta.snapFps (29.9596 : ℚ) := by
  have s1 : VideoMeta.commonFpsTol.find?
      (fun vt => |(29.9596 : ℚ) - vt.1| ≤ vt.2) = none := by
    simp only [VideoMeta.commonFpsTol, List.find?]
    norm_num [abs_le]
  have s2 : VideoMeta.commonFpsTol.find? (fun vt =>
      |(29.9596 : ℚ) / 2 - vt.1| ≤ 0.01 ∨ |(29.9596 : ℚ) * 2 - vt.1| ≤ 0.01) = none := by
    simp only [VideoMeta.commonFpsTol, List.find?]
    norm_num [abs_le]
  have e1 : VideoMeta.snapFps (29.9596 : ℚ) = some (29.96 : ℚ) := by
    unfold VideoMeta.snapFps
    rw [s1, s2]
    rw [if_pos (by norm_num)]
    have hfl : VideoMeta.jsRound ((29.9596 : ℚ) * 1000) = 29960 := by
      unfold VideoMeta.jsRound
      norm_num [Int.floor_eq_iff]
    rw [hfl]
    norm_num
  have t1 : VideoMeta.commonFpsTol.find?
      (fun vt => |(29.96 : ℚ) - vt.1| ≤ vt.2) = some (29.97, 0.01) := by
    simp only [VideoMeta.commonFpsTol, List.find?]
    norm_num [abs_le]
  have e2 : VideoMeta.snapFps (29.96 : ℚ) = some (29.97 : ℚ) :=
    snapFps_of_stage1 _ _ _ t1
  refine ⟨e1, e2, ?_⟩
  rw [e1]
  show VideoMeta.snapFps (29.96 : ℚ) ≠ some (29.96 : ℚ)
  rw [e2]
  norm_num

/-- C7 (amended): snapping is idempotent whenever the snapped value comes
from the nominal set (in particular whenever the first two stages
produced it): if snap(x) is a nominal v then snap(v) = v and
snap(snap(x)) = snap(x). Only the 3-decimal rounding stage can break
idempotence. -/
theorem c7_snap_idempotent_on_nominals (x v : ℚ)
    (h1 : VideoMeta.snapFps x = some v) (h2 : v ∈ VideoMeta.commonFpsValues) :
    VideoMeta.snapFps v = some v ∧
    (VideoMeta.snapFps x).bind VideoMeta.snapFps = VideoMeta.snapFps x := by
  have hsnap : VideoMeta.snapFps v = some v := by
    simp only [VideoMeta.commonFpsValues, List.mem_cons, List.not_mem_nil,
      or_false] at h2
    rcases h2 with rfl | rfl | rfl | rfl | rfl | rfl | rfl | rfl | rfl | rfl | rfl |
      rfl | rfl | rfl
    all_goals
      apply snapFps_of_stage1 _ _ 0.01
      simp only [VideoMeta.commonFpsTol, List.find?]
      norm_num [abs_le]
  refine ⟨hsnap, ?_⟩
  rw [h1]
  simpa using hsnap

/-- Witness for C7 (amended): snap(30) is the nominal 30, and a second
snap leaves it unchanged. -/
theorem c7_snap_idempotent_witness :
    VideoMeta.snapFps 30 = some 30 ∧
    (VideoMeta.snapFps 30).bind VideoMeta.snapFps = VideoMeta.snapFps 30 := by
  have h30 : VideoMeta.snapFps (30 : ℚ) = some 30 := by
    apply snapFps_of_stage1 _ _ 0.01
    simp only [VideoMeta.commonFpsTol, List.find?]
    norm_num [abs_le]
  have hmem : (30 : ℚ) ∈ VideoMeta.commonFpsValues := by
    simp only [VideoMeta.commonFpsValues, List.mem_cons]
    norm_num
  exact c7_snap_idempotent_on_nominals 30 30 h30 hmem

/-- C6: for a 9-entry tkhd matrix, the rotation derived by
`MP4Parser.parseVideoTrack` through `rotationFromMatrix` is 90 exactly when
a = 0, d = 0, b = +0x10000, c = -0x10000; 270 exactly when a = 0, d = 0,
b = -0x10000, c = +0x10000; 180 exactly when a = -0x10000 and d = -0x10000;
and it is always one of 0, 90, 180, 270. -/
theorem c6_rotation_spec (m : List Int) (hm : m.length = 9) :
    (VideoMeta.MP4Parser.rotationFromMatrix m = 90 ↔
      m.getD 0 0 = 0 ∧ m.getD 4 0 = 0 ∧ m.getD 1 0 = 65536 ∧ m.getD 3 0 = -65536) ∧
    (VideoMeta.MP4Parser.rotationFromMatrix m = 270 ↔
      m.getD 0 0 = 0 ∧ m.getD 4 0 = 0 ∧ m.getD 1 0 = -65536 ∧ m.getD 3 0 = 65536) ∧
    (VideoMeta.MP4Parser.rotationFromMatrix m = 180 ↔
      m.getD 0 0 = -65536 ∧ m.getD 4 0 = -65536) ∧
    (VideoMeta.MP4Parser.rotationFromMatrix m = 0 ∨
      VideoMeta.MP4Parser.rotationFromMatrix m = 90 ∨
      VideoMeta.MP4Parser.rotationFromMatrix m = 180 ∨
      VideoMeta.MP4Parser.rotationFromMatrix m = 270) := by
  unfold VideoMeta.MP4Parser.rotationFromMatrix
  dsimp only
  split_ifs with h1 h2 h3 h4 <;>
    refine ⟨?_, ?_, ?_, ?_⟩ <;>
      simp_all <;> omega

/-- Witness for C6 at the 90-degree rotation matrix. -/
theorem c6_rotation_spec_witness :
    ([0, 65536, 0, -65536, 0, 0, 0, 0, 65536] : List Int).length = 9 ∧
    VideoMeta.MP4Parser.rotationFromMatrix [0, 65536, 0, -65536, 0, 0, 0, 0, 65536] = 90 :=
  ⟨rfl, (c6_rotation_spec [0, 65536, 0, -65536, 0, 0, 0, 0, 65536] rfl).1.mpr (by decide)⟩

/-- C2 counterexample: on a well-formed 60-byte MP4 (ftyp + moov) whose
single trak's handler type is `soun` (audio), `MP4Parser.parse` fails with
the `No video track found` error instead of returning an audio-only
result with zero dimensions. -/
theorem c2_counterexample :
    VideoMeta.MP4Parser.parse VideoMeta.audioOnlyMp4 =
      Except.error VideoMeta.Mp4Err.noVideoTrack ∧
    ((VideoMeta.MP4Parser.readBoxes VideoMeta.audioOnlyMp4).map (fun b => b.type)) =
      [[102, 116, 121, 112], VideoMeta.moovT] ∧
    (VideoMeta.audioOnlyMp4.drop 56).take 4 = [115, 111, 117, 110] :=
  ⟨rfl, rfl, rfl⟩

/-- C2 (amended): whenever the top-level boxes contain a `moov` box whose
children hold no track with handler `vide`, `MP4Parser.parse` fails with
the `No video track found` error — audio-only input is rejected, not
surfaced as a result with zero dimensions. -/
theorem c2_no_video_track_throws (data : List Nat) (moov : VideoMeta.MP4Box)
    (h1 : (VideoMeta.MP4Parser.readBoxes data).find?
      (fun b => b.type == VideoMeta.moovT) = some moov)
    (h2 : VideoMeta.MP4Parser.findVideoTrack
      (VideoMeta.MP4Parser.parseBoxes moov.data) = none) :
    VideoMeta.MP4Parser.parse data = Except.error VideoMeta.Mp4Err.noVideoTrack := by
  unfold VideoMeta.MP4Parser.parse
  rw [h1]
  dsimp only
  rw [h2]

/-- Witness for the amended C2 at the concrete audio-only MP4. -/
theorem c2_no_video_track_throws_witness :
    VideoMeta.MP4Parser.parse VideoMeta.audioOnlyMp4 =
      Except.error VideoMeta.Mp4Err.noVideoTrack :=
  c2_no_video_track_throws VideoMeta.audioOnlyMp4
    { type := VideoMeta.moovT, size := 44, start := 16, stop := 60, data := VideoMeta.trakSounBytes }
    rfl rfl
